import Mathlib

/-!
Verification of the MRIMate decoding pipeline (`src/mrimate/mrimate.py`,
`src/mrimate/models.py`) against its natural-language specification.

Shallow embedding conventions:
* numpy integer pixel buffers are modelled as arrays of `ℤ` (the REC buffer
  holds integer codes); float results (decoded phase, velocity) live in `ℝ`.
* Header float fields (the per-axis encoding velocity) are modelled as exact
  rationals `ℚ`, so that the header equality test `PhaseEncodingVelocity !=
  (0.0, 0.0, 0.0)` performed by the code stays decidable.
* A numpy n-d array is a shape together with a total indexing function;
  out-of-range indices return junk values that no theorem depends on.
* Python exceptions are modelled by `PyError` carrying the exception class
  and message; fallible methods return `Except PyError`.
* Exception messages are reproduced from the source minus quote characters.
-/

/-- Model of a raised Python exception: the class of the exception together
with its message.  The decoding pipeline only ever raises `ValueError`
(either its own or numpy's); `TypeError` models the arithmetic-on-`None`
failure mode of Python itself. -/
inductive PyError where
  | valueError : String → PyError
  | typeError : String → PyError
deriving DecidableEq, Repr

/-- The Python class name of a raised exception. -/
def PyError.className : PyError → String
  | .valueError _ => "ValueError"
  | .typeError _ => "TypeError"

/-- The message of a raised exception. -/
def PyError.message : PyError → String
  | .valueError m => m
  | .typeError m => m

/-- A computation `e` raised an exception of Python class `c`. -/
def raisesClass {β : Type} (e : Except PyError β) (c : String) : Prop :=
  ∃ err, e = .error err ∧ err.className = c

/-- A 3-dimensional numpy array: shape `(n0, n1, n2)` plus a total indexing
function (row-major semantics are recovered through `Arr3.flat`). -/
structure Arr3 (α : Type) where
  n0 : Nat
  n1 : Nat
  n2 : Nat
  val : Nat → Nat → Nat → α

/-- A 4-dimensional numpy array. -/
structure Arr4 (α : Type) where
  n0 : Nat
  n1 : Nat
  n2 : Nat
  n3 : Nat
  val : Nat → Nat → Nat → Nat → α

/-- Total number of elements of a 3-d array. -/
def Arr3.size {α : Type} (a : Arr3 α) : Nat := a.n0 * a.n1 * a.n2

/-- Total number of elements of a 4-d array. -/
def Arr4.size {α : Type} (a : Arr4 α) : Nat := a.n0 * a.n1 * a.n2 * a.n3

/-- Row-major (C-order) flat view of a 3-d array, as numpy flattening does. -/
def Arr3.flat {α : Type} (a : Arr3 α) (n : Nat) : α :=
  a.val (n / (a.n1 * a.n2)) (n / a.n2 % a.n1) (n % a.n2)

/-- Row-major (C-order) flat view of a 4-d array. -/
def Arr4.flat {α : Type} (a : Arr4 α) (n : Nat) : α :=
  a.val (n / (a.n1 * a.n2 * a.n3)) (n / (a.n2 * a.n3) % a.n1) (n / a.n3 % a.n2) (n % a.n3)

/-- Elementwise map over a 4-d array (numpy broadcasting of a scalar
operation over a whole array). -/
def Arr4.map {α β : Type} (f : α → β) (a : Arr4 α) : Arr4 β :=
  ⟨a.n0, a.n1, a.n2, a.n3, fun i j k t => f (a.val i j k t)⟩

/-- The strided slice `a[:, :, :, start::step]` of a 4-d numpy array. -/
def Arr4.sliceLast {α : Type} (a : Arr4 α) (start step : Nat) : Arr4 α :=
  ⟨a.n0, a.n1, a.n2, (a.n3 - start + (step - 1)) / step,
   fun i j k t => a.val i j k (start + step * t)⟩

/-- The dynamically-typed `self.data` attribute: a 3-d array right after the
REC file is read, a 4-d array after `resize_data` reassigns it. -/
inductive NpData (α : Type) where
  | d3 : Arr3 α → NpData α
  | d4 : Arr4 α → NpData α

/-- Total number of elements of `self.data`. -/
def NpData.size {α : Type} : NpData α → Nat
  | .d3 a => a.size
  | .d4 a => a.size

/-- Row-major flat view of `self.data`. -/
def NpData.flat {α : Type} : NpData α → Nat → α
  | .d3 a => a.flat
  | .d4 a => a.flat

/-- `self.data.shape[0]`. -/
def NpData.shape0 {α : Type} : NpData α → Nat
  | .d3 a => a.n0
  | .d4 a => a.n0

/-- `self.data.shape[1]`. -/
def NpData.shape1 {α : Type} : NpData α → Nat
  | .d3 a => a.n1
  | .d4 a => a.n1

/-- Message of numpy's reshape failure on a total-size mismatch. -/
def reshapeErrMsg : String := "cannot reshape array into the requested shape"

/-- Model of `np.reshape(data, (m0, m1, m2, m3))`: succeeds iff the total
size is preserved and then reindexes the row-major flat sequence; otherwise
numpy raises a `ValueError`. -/
def npReshape {α : Type} (d : NpData α) (m0 m1 m2 m3 : Nat) : Except PyError (Arr4 α) :=
  if d.size = m0 * m1 * m2 * m3 then
    .ok ⟨m0, m1, m2, m3, fun i j k t => d.flat (((i * m1 + j) * m2 + k) * m3 + t)⟩
  else
    .error (.valueError reshapeErrMsg)

/-- Minimum of a list of naturals, as `np.min` over a nonempty axis (the
empty case is guarded by the callers; numpy raises there). -/
def listMin (l : List Nat) : Nat :=
  match l with
  | [] => 0
  | x :: xs => xs.foldl Nat.min x

/-- Maximum of a list of naturals, as `np.max` over a nonempty axis. -/
def listMax (l : List Nat) : Nat :=
  match l with
  | [] => 0
  | x :: xs => xs.foldl Nat.max x

/-- Message of numpy's reduction-over-empty-axis failure (raised by
`np.min` on an all-zero volume inside `removing_unwanted_zeros`). -/
def minReduceMsg : String :=
  "zero-size array to reduction operation minimum which has no identity"

/-- Indices of all non-zero voxels of a 3-d integer array, as the
coordinate triples returned by `np.nonzero`. -/
def Arr3.nonzeroIdx (a : Arr3 ℤ) : List (Nat × Nat × Nat) :=
  (((List.range a.n0).flatMap fun i =>
      (List.range a.n1).flatMap fun j =>
        (List.range a.n2).map fun k => (i, j, k)).filter
    fun p => decide (a.val p.1 p.2.1 p.2.2 ≠ 0))

/-- Indices of all non-zero voxels of a 4-d integer array. -/
def Arr4.nonzeroIdx (a : Arr4 ℤ) : List (Nat × Nat × Nat × Nat) :=
  (((List.range a.n0).flatMap fun i =>
      (List.range a.n1).flatMap fun j =>
        (List.range a.n2).flatMap fun k =>
          (List.range a.n3).map fun t => (i, j, k, t)).filter
    fun p => decide (a.val p.1 p.2.1 p.2.2.1 p.2.2.2 ≠ 0))

/-- The body of `removing_unwanted_zeros` on a 3-d buffer: per-axis min and
max of the non-zero coordinates (`np.min`/`np.max` of `np.nonzero`), then the
inclusive bounding-box slice `data[min0:max0+1, min1:max1+1, min2:max2+1]`.
On an all-zero array `np.min` is a reduction over an empty axis and raises a
`ValueError`. -/
def Arr3.crop (a : Arr3 ℤ) : Except PyError (Arr3 ℤ) :=
  match a.nonzeroIdx with
  | [] => .error (.valueError minReduceMsg)
  | q :: qs =>
      .ok ⟨listMax ((q :: qs).map fun p => p.1) -
             listMin ((q :: qs).map fun p => p.1) + 1,
           listMax ((q :: qs).map fun p => p.2.1) -
             listMin ((q :: qs).map fun p => p.2.1) + 1,
           listMax ((q :: qs).map fun p => p.2.2) -
             listMin ((q :: qs).map fun p => p.2.2) + 1,
           fun i j k =>
             a.val (listMin ((q :: qs).map fun p => p.1) + i)
                   (listMin ((q :: qs).map fun p => p.2.1) + j)
                   (listMin ((q :: qs).map fun p => p.2.2) + k)⟩

/-- The body of `removing_unwanted_zeros` on a 4-d buffer: the slice
`data[min0:max0+1, min1:max1+1, min2:max2+1]` crops the first three axes
only; the frame axis is untouched.  (Unreached in the `load` pipeline, where
the crop runs before any reshape.) -/
def Arr4.crop (a : Arr4 ℤ) : Except PyError (Arr4 ℤ) :=
  match a.nonzeroIdx with
  | [] => .error (.valueError minReduceMsg)
  | q :: qs =>
      .ok ⟨listMax ((q :: qs).map fun p => p.1) -
             listMin ((q :: qs).map fun p => p.1) + 1,
           listMax ((q :: qs).map fun p => p.2.1) -
             listMin ((q :: qs).map fun p => p.2.1) + 1,
           listMax ((q :: qs).map fun p => p.2.2.1) -
             listMin ((q :: qs).map fun p => p.2.2.1) + 1,
           a.n3,
           fun i j k t =>
             a.val (listMin ((q :: qs).map fun p => p.1) + i)
                   (listMin ((q :: qs).map fun p => p.2.1) + j)
                   (listMin ((q :: qs).map fun p => p.2.2.1) + k) t⟩

/-- The fields of the Philips header model (`models.MRIExperiment_Philips`)
that the decoding pipeline reads; the remaining fields of the pydantic model
are presentation-only metadata never consulted by `resize_data`,
`removing_unwanted_zeros` or `calculate_velocity`.  Header floats are
modelled as exact rationals. -/
structure MRIExperiment_Philips where
  MaxNumberOfEchoes : Nat
  MaxNumberOfSlicesLocations : Nat
  MaxNumberOfDynamics : Nat
  PhaseEncodingVelocity : ℚ × ℚ × ℚ
deriving DecidableEq

/-- `is_flow_encoded`: the header comparison
`self.PhaseEncodingVelocity != (0.0, 0.0, 0.0)`. -/
def MRIExperiment_Philips.is_flow_encoded (p : MRIExperiment_Philips) : Bool :=
  decide (p.PhaseEncodingVelocity ≠ ((0 : ℚ), (0 : ℚ), (0 : ℚ)))

/-- The `NumberOfSlices` property. -/
def MRIExperiment_Philips.NumberOfSlices (p : MRIExperiment_Philips) : Nat :=
  p.MaxNumberOfSlicesLocations

/-- The `NumberOfDynamics` property. -/
def MRIExperiment_Philips.NumberOfDynamics (p : MRIExperiment_Philips) : Nat :=
  p.MaxNumberOfDynamics

/-- The `MaxEncodedVelocity` property:
`np.linalg.norm(self.PhaseEncodingVelocity)`, the Euclidean norm of the
per-axis encoding-velocity vector. -/
noncomputable def MRIExperiment_Philips.MaxEncodedVelocity
    (p : MRIExperiment_Philips) : ℝ :=
  Real.sqrt ((p.PhaseEncodingVelocity.1 : ℝ) ^ 2 +
    (p.PhaseEncodingVelocity.2.1 : ℝ) ^ 2 + (p.PhaseEncodingVelocity.2.2 : ℝ) ^ 2)

/-- The phase decode applied elementwise by the flow branch of
`resize_data`: `(phase_integer - 4096/2) / (4096/2) * np.pi`. -/
noncomputable def phaseDecode (c : ℤ) : ℝ :=
  ((c : ℝ) - 4096 / 2) / (4096 / 2) * Real.pi

/-- The scalar map applied elementwise by `calculate_velocity`:
`phase * MaxEncodedVelocity / np.pi`. -/
noncomputable def velocityOfPhase (V x : ℝ) : ℝ :=
  x * V / Real.pi

/-- The mutable attributes of an `MRImateExperiment` instance set by
`__init__` (the PAR/REC file paths, pure I/O bookkeeping, are omitted). -/
structure MRImateExperiment where
  parameters : MRIExperiment_Philips
  data : NpData ℤ
  spin_density : Option (NpData ℤ)
  phase : Option (Arr4 ℝ)
  velocity : Option (Arr4 ℝ)
  data_loaded : Bool

/-- The state created by `__init__` once the external parser has produced
the header and the REC reader the raw 3-d buffer. -/
def initExperiment (pars : MRIExperiment_Philips) (rec : Arr3 ℤ) :
    MRImateExperiment :=
  ⟨pars, .d3 rec, none, none, none, false⟩

/-- `removing_unwanted_zeros`: crops `self.data` to the bounding box of its
non-zero voxels but stores the result only in `self.spin_density`;
`self.data` itself is left untouched. -/
def removing_unwanted_zeros (s : MRImateExperiment) :
    Except PyError MRImateExperiment :=
  match s.data with
  | .d3 a => (a.crop).map fun c => { s with spin_density := some (.d3 c) }
  | .d4 a => (a.crop).map fun c => { s with spin_density := some (.d4 c) }

/-- `resize_data`: reshape `self.data` to `(shape[0], shape[1], slices,
frames)` where the frame count and the channel split depend on the header
mode.  Flow-encoded: frames = dynamics*2, even frames become
`spin_density`, odd frames are phase codes decoded to radians.  Multi-echo:
frames = echoes, whole volume is `spin_density`.  Standard: frames =
dynamics, whole volume is `spin_density`. -/
noncomputable def resize_data (s : MRImateExperiment) :
    Except PyError MRImateExperiment :=
  if s.parameters.is_flow_encoded then
    (npReshape s.data s.data.shape0 s.data.shape1 s.parameters.NumberOfSlices
        (s.parameters.NumberOfDynamics * 2)).map fun d =>
      { s with data := .d4 d,
               spin_density := some (.d4 (d.sliceLast 0 2)),
               phase := some ((d.sliceLast 1 2).map phaseDecode) }
  else if s.parameters.MaxNumberOfEchoes > 1 then
    (npReshape s.data s.data.shape0 s.data.shape1 s.parameters.NumberOfSlices
        s.parameters.MaxNumberOfEchoes).map fun d =>
      { s with data := .d4 d, spin_density := some (.d4 d) }
  else
    (npReshape s.data s.data.shape0 s.data.shape1 s.parameters.NumberOfSlices
        s.parameters.NumberOfDynamics).map fun d =>
      { s with data := .d4 d, spin_density := some (.d4 d) }

/-- `load` after the external parser and REC reader have produced the header
and the raw buffer: run `removing_unwanted_zeros`, then `resize_data`, then
set `data_loaded`. -/
noncomputable def load (pars : MRIExperiment_Philips) (rec : Arr3 ℤ) :
    Except PyError MRImateExperiment := do
  let s1 ← removing_unwanted_zeros (initExperiment pars rec)
  let s2 ← resize_data s1
  .ok { s2 with data_loaded := true }

/-- The comparison pipeline for the crop-has-no-effect claim: `load` with
the `removing_unwanted_zeros` call skipped. -/
noncomputable def load_without_crop (pars : MRIExperiment_Philips)
    (rec : Arr3 ℤ) : Except PyError MRImateExperiment := do
  let s2 ← resize_data (initExperiment pars rec)
  .ok { s2 with data_loaded := true }

/-- Message raised when a method is called before `load`. -/
def dataNotLoadedMsg : String := "Data not loaded. Call load() method first."

/-- Message raised by `get_phase` (and by `get_velocity` and
`calculate_velocity`) when no phase channel exists. -/
def phaseUnavailMsg : String :=
  "Phase data is not available. Ensure velocity encoding is present."

/-- Message raised by `get_velocity` when the velocity has not been
computed yet. -/
def velocityUnavailMsg : String :=
  "Velocity data is not available. Call calculate_velocity() first."

/-- `get_spin_density`. -/
def get_spin_density (s : MRImateExperiment) : Except PyError (NpData ℤ) :=
  if s.data_loaded = false then .error (.valueError dataNotLoadedMsg)
  else
    match s.spin_density with
    | none => .error (.valueError
        "Spin density is not available. Ensure data is loaded and processed.")
    | some sd => .ok sd

/-- `get_phase`: `ValueError` if not loaded, `ValueError` with the
phase-unavailable message if `self.phase is None`. -/
def get_phase (s : MRImateExperiment) : Except PyError (Arr4 ℝ) :=
  if s.data_loaded = false then .error (.valueError dataNotLoadedMsg)
  else
    match s.phase with
    | none => .error (.valueError phaseUnavailMsg)
    | some ph => .ok ph

/-- `get_velocity`: checks `data_loaded`, then `self.phase is None` (phase
message), then `self.velocity is None` (velocity message). -/
def get_velocity (s : MRImateExperiment) : Except PyError (Arr4 ℝ) :=
  if s.data_loaded = false then .error (.valueError dataNotLoadedMsg)
  else
    match s.phase with
    | none => .error (.valueError phaseUnavailMsg)
    | some _ =>
        match s.velocity with
        | none => .error (.valueError velocityUnavailMsg)
        | some v => .ok v

/-- `calculate_velocity`: on a flow-encoded loaded experiment, set
`self.velocity = self.phase * self.parameters.MaxEncodedVelocity / np.pi`
elementwise; otherwise raise `ValueError`.  The unreachable branch where
`self.phase` is `None` despite flow encoding is Python's own `TypeError`
for `None * float`. -/
noncomputable def calculate_velocity (s : MRImateExperiment) :
    Except PyError MRImateExperiment :=
  if s.data_loaded = false then .error (.valueError dataNotLoadedMsg)
  else if s.parameters.is_flow_encoded then
    match s.phase with
    | some ph => .ok { s with
        velocity := some (ph.map (velocityOfPhase s.parameters.MaxEncodedVelocity)) }
    | none => .error (.typeError
        "unsupported operand type for *: NoneType and float")
  else .error (.valueError phaseUnavailMsg)

/-- Extract the success value of an `Except`, with a fallback (used only to
name concrete states in closed witness statements). -/
def okOr {α : Type} (e : Except PyError α) (d : α) : α :=
  match e with
  | .ok x => x
  | .error _ => d

/-- A constant 3-d integer array, for concrete test volumes. -/
def arr3Const (n0 n1 n2 : Nat) (c : ℤ) : Arr3 ℤ := ⟨n0, n1, n2, fun _ _ _ => c⟩

/-- Fallback 4-d real array for `okOr`. -/
def dfltArr4R : Arr4 ℝ := ⟨0, 0, 0, 0, fun _ _ _ _ => 0⟩

/-- Fallback experiment state for `okOr`. -/
def dfltExperiment : MRImateExperiment :=
  initExperiment ⟨1, 1, 1, (0, 0, 0)⟩ (arr3Const 0 0 0 0)

/-- Concrete flow-encoded header: 1 echo, 1 slice, 1 dynamic, single-axis
encoding velocity (1, 0, 0) cm/s. -/
def parsFlow : MRIExperiment_Philips := ⟨1, 1, 1, (1, 0, 0)⟩

/-- Concrete 1x1x2 buffer for the flow header: magnitude frame 5, phase
code frame 2048 (mid-scale). -/
def recFlow : Arr3 ℤ := ⟨1, 1, 2, fun _ _ k => if k = 0 then 5 else 2048⟩

/-- A second buffer with the same shape but different pixel values. -/
def recFlow2 : Arr3 ℤ := ⟨1, 1, 2, fun _ _ k => if k = 0 then 3 else 4095⟩

/-- The flow experiment after `load`. -/
noncomputable def sFlow : MRImateExperiment :=
  okOr (load parsFlow recFlow) dfltExperiment

/-- The phase channel of the loaded flow experiment. -/
noncomputable def phFlow : Arr4 ℝ := sFlow.phase.getD dfltArr4R

/-- The flow experiment after `calculate_velocity`. -/
noncomputable def sFlowVel : MRImateExperiment :=
  okOr (calculate_velocity sFlow) dfltExperiment

/-- The flow experiment right after the `resize_data` step alone. -/
noncomputable def sFlowResized : MRImateExperiment :=
  okOr (resize_data (initExperiment parsFlow recFlow)) dfltExperiment

/-- The flow experiment loaded from the second buffer. -/
noncomputable def sFlow2 : MRImateExperiment :=
  okOr (load parsFlow recFlow2) dfltExperiment

/-- Concrete standard-mode header: 1 echo, 1 slice, 1 dynamic, encoding
velocity (0, 0, 0). -/
def parsStd : MRIExperiment_Philips := ⟨1, 1, 1, (0, 0, 0)⟩

/-- Concrete 1x1x1 non-zero buffer for the standard header. -/
def recStd : Arr3 ℤ := arr3Const 1 1 1 7

/-- The standard experiment after `load`. -/
noncomputable def sStd : MRImateExperiment :=
  okOr (load parsStd recStd) dfltExperiment

/-- Concrete multi-axis flow header: encoding velocity (1, 1, 0) with two
non-zero components. -/
def parsMulti : MRIExperiment_Philips := ⟨1, 1, 1, (1, 1, 0)⟩

/-- Experiment state holding the multi-axis header and a fitting buffer. -/
def sMulti : MRImateExperiment := initExperiment parsMulti recFlow

/-- Concrete all-zero 1x1x1 volume. -/
def recZero : Arr3 ℤ := arr3Const 1 1 1 0

/-- Concrete 1x1x1 volume too short for the flow reshape (needs 2
elements). -/
def recShort : Arr3 ℤ := arr3Const 1 1 1 9

/-- Concrete all-non-zero 1x1x1 volume for the idempotence witness. -/
def recTight : Arr3 ℤ := arr3Const 1 1 1 1

theorem foldl_min_le_init (xs : List Nat) (a : Nat) : xs.foldl Nat.min a ≤ a := by
  induction xs generalizing a with
  | nil => exact Nat.le_refl a
  | cons y ys ih =>
      calc (y :: ys).foldl Nat.min a = ys.foldl Nat.min (Nat.min a y) := rfl
        _ ≤ Nat.min a y := ih _
        _ ≤ a := Nat.min_le_left _ _

theorem foldl_min_le_mem (xs : List Nat) (a x : Nat) (h : x ∈ xs) :
    xs.foldl Nat.min a ≤ x := by
  induction xs generalizing a with
  | nil => cases h
  | cons y ys ih =>
      rcases List.mem_cons.mp h with rfl | hx
      · calc (x :: ys).foldl Nat.min a = ys.foldl Nat.min (Nat.min a x) := rfl
          _ ≤ Nat.min a x := foldl_min_le_init _ _
          _ ≤ x := Nat.min_le_right _ _
      · exact ih _ hx

theorem listMin_le (l : List Nat) (x : Nat) (h : x ∈ l) : listMin l ≤ x := by
  cases l with
  | nil => cases h
  | cons y ys =>
      rcases List.mem_cons.mp h with rfl | hx
      · exact foldl_min_le_init _ _
      · exact foldl_min_le_mem _ _ _ hx

theorem init_le_foldl_max (xs : List Nat) (a : Nat) : a ≤ xs.foldl Nat.max a := by
  induction xs generalizing a with
  | nil => exact Nat.le_refl a
  | cons y ys ih =>
      calc a ≤ Nat.max a y := Nat.le_max_left _ _
        _ ≤ ys.foldl Nat.max (Nat.max a y) := ih _
        _ = (y :: ys).foldl Nat.max a := rfl

theorem mem_le_foldl_max (xs : List Nat) (a x : Nat) (h : x ∈ xs) :
    x ≤ xs.foldl Nat.max a := by
  induction xs generalizing a with
  | nil => cases h
  | cons y ys ih =>
      rcases List.mem_cons.mp h with rfl | hx
      · calc x ≤ Nat.max a x := Nat.le_max_right _ _
          _ ≤ ys.foldl Nat.max (Nat.max a x) := init_le_foldl_max _ _
      · exact ih _ hx

theorem le_listMax (l : List Nat) (x : Nat) (h : x ∈ l) : x ≤ listMax l := by
  cases l with
  | nil => cases h
  | cons y ys =>
      rcases List.mem_cons.mp h with rfl | hx
      · exact init_le_foldl_max _ _
      · exact mem_le_foldl_max _ _ _ hx

theorem foldl_max_le (xs : List Nat) (a b : Nat) (ha : a ≤ b)
    (h : ∀ x ∈ xs, x ≤ b) : xs.foldl Nat.max a ≤ b := by
  induction xs generalizing a with
  | nil => exact ha
  | cons y ys ih =>
      exact ih _ (Nat.max_le.mpr ⟨ha, h y (List.mem_cons_self _ _)⟩)
        (fun x hx => h x (List.mem_cons_of_mem _ hx))

theorem listMax_le (l : List Nat) (b : Nat) (h : ∀ x ∈ l, x ≤ b) :
    listMax l ≤ b := by
  cases l with
  | nil => exact Nat.zero_le _
  | cons y ys =>
      exact foldl_max_le _ _ _ (h y (List.mem_cons_self _ _))
        (fun x hx => h x (List.mem_cons_of_mem _ hx))

theorem mem_nonzeroIdx_iff (a : Arr3 ℤ) (i j k : Nat) :
    (i, j, k) ∈ a.nonzeroIdx ↔
      i < a.n0 ∧ j < a.n1 ∧ k < a.n2 ∧ a.val i j k ≠ 0 := by
  unfold Arr3.nonzeroIdx
  simp [List.mem_filter, List.mem_flatMap, List.mem_range]
  aesop

theorem nonzeroIdx_bounds (a : Arr3 ℤ) (p : Nat × Nat × Nat)
    (h : p ∈ a.nonzeroIdx) :
    p.1 < a.n0 ∧ p.2.1 < a.n1 ∧ p.2.2 < a.n2 := by
  obtain ⟨i, j, k⟩ := p
  have := (mem_nonzeroIdx_iff a i j k).mp h
  exact ⟨this.1, this.2.1, this.2.2.1⟩

theorem npReshape_ok_iff {α : Type} (d : NpData α) (m0 m1 m2 m3 : Nat) :
    (∃ a, npReshape d m0 m1 m2 m3 = .ok a) ↔ d.size = m0 * m1 * m2 * m3 := by
  unfold npReshape
  split
  · exact ⟨fun _ => by assumption, fun _ => ⟨_, rfl⟩⟩
  · constructor
    · rintro ⟨a, ha⟩
      cases ha
    · intro h
      exact absurd h (by assumption)

theorem npReshape_ok_shape {α : Type} (d : NpData α) (m0 m1 m2 m3 : Nat)
    (a : Arr4 α) (h : npReshape d m0 m1 m2 m3 = .ok a) :
    a = ⟨m0, m1, m2, m3, fun i j k t => d.flat (((i * m1 + j) * m2 + k) * m3 + t)⟩ := by
  unfold npReshape at h
  split at h
  · cases h
    rfl
  · cases h

theorem npReshape_err {α : Type} (d : NpData α) (m0 m1 m2 m3 : Nat)
    (h : d.size ≠ m0 * m1 * m2 * m3) :
    npReshape d m0 m1 m2 m3 = .error (.valueError reshapeErrMsg) := by
  unfold npReshape
  split
  · exact absurd (by assumption) h
  · rfl

/-- Changing only `spin_density` changes nothing about what `resize_data`
computes: the method reads only `data` and `parameters` and overwrites
`spin_density` in every branch. -/
theorem resize_data_spin_density_irrelevant (s : MRImateExperiment)
    (sd : Option (NpData ℤ)) :
    resize_data { s with spin_density := sd } = resize_data s := rfl

/-- Exhaustive description of `resize_data`: exactly one of the three header
modes fires, in the priority order flow, multi-echo, standard. -/
theorem resize_data_cases (s s' : MRImateExperiment)
    (h : resize_data s = .ok s') :
    (s.parameters.is_flow_encoded = true ∧
      ∃ d, npReshape s.data s.data.shape0 s.data.shape1
            s.parameters.NumberOfSlices (s.parameters.NumberOfDynamics * 2) = .ok d ∧
        s' = { s with data := .d4 d,
                      spin_density := some (.d4 (d.sliceLast 0 2)),
                      phase := some ((d.sliceLast 1 2).map phaseDecode) }) ∨
    (s.parameters.is_flow_encoded = false ∧ s.parameters.MaxNumberOfEchoes > 1 ∧
      ∃ d, npReshape s.data s.data.shape0 s.data.shape1
            s.parameters.NumberOfSlices s.parameters.MaxNumberOfEchoes = .ok d ∧
        s' = { s with data := .d4 d, spin_density := some (.d4 d) }) ∨
    (s.parameters.is_flow_encoded = false ∧ ¬ s.parameters.MaxNumberOfEchoes > 1 ∧
      ∃ d, npReshape s.data s.data.shape0 s.data.shape1
            s.parameters.NumberOfSlices s.parameters.NumberOfDynamics = .ok d ∧
        s' = { s with data := .d4 d, spin_density := some (.d4 d) }) := by
  unfold resize_data at h
  by_cases hf : s.parameters.is_flow_encoded
  · left
    refine ⟨hf, ?_⟩
    rw [if_pos hf] at h
    cases hre : npReshape s.data s.data.shape0 s.data.shape1
        s.parameters.NumberOfSlices (s.parameters.NumberOfDynamics * 2) with
    | error e => rw [hre] at h; cases h
    | ok d =>
        rw [hre] at h
        cases h
        exact ⟨d, rfl, rfl⟩
  · rw [if_neg hf] at h
    by_cases he : s.parameters.MaxNumberOfEchoes > 1
    · right; left
      refine ⟨by simpa using hf, he, ?_⟩
      rw [if_pos he] at h
      cases hre : npReshape s.data s.data.shape0 s.data.shape1
          s.parameters.NumberOfSlices s.parameters.MaxNumberOfEchoes with
      | error e => rw [hre] at h; cases h
      | ok d =>
          rw [hre] at h
          cases h
          exact ⟨d, rfl, rfl⟩
    · right; right
      refine ⟨by simpa using hf, he, ?_⟩
      rw [if_neg he] at h
      cases hre : npReshape s.data s.data.shape0 s.data.shape1
          s.parameters.NumberOfSlices s.parameters.NumberOfDynamics with
      | error e => rw [hre] at h; cases h
      | ok d =>
          rw [hre] at h
          cases h
          exact ⟨d, rfl, rfl⟩

theorem nonzeroIdx_eq_nil (a : Arr3 ℤ)
    (h : ∀ i < a.n0, ∀ j < a.n1, ∀ k < a.n2, a.val i j k = 0) :
    a.nonzeroIdx = [] := by
  rcases hne : a.nonzeroIdx with _ | ⟨p, ps⟩
  · rfl
  · exfalso
    have hp : p ∈ a.nonzeroIdx := by
      rw [hne]
      exact List.mem_cons_self _ _
    obtain ⟨i, j, k⟩ := p
    have hm := (mem_nonzeroIdx_iff a i j k).mp hp
    exact hm.2.2.2 (h i hm.1 j hm.2.1 k hm.2.2.1)

theorem crop_allzero (a : Arr3 ℤ)
    (h : ∀ i < a.n0, ∀ j < a.n1, ∀ k < a.n2, a.val i j k = 0) :
    a.crop = .error (.valueError minReduceMsg) := by
  unfold Arr3.crop
  rw [nonzeroIdx_eq_nil a h]

/-- A volume with a non-zero voxel on every face of its three axes is
already tightly cropped: the bounding-box crop is the identity. -/
theorem crop_tight (a : Arr3 ℤ)
    (hf0 : ∃ j k, j < a.n1 ∧ k < a.n2 ∧ a.val 0 j k ≠ 0)
    (hf0' : ∃ j k, j < a.n1 ∧ k < a.n2 ∧ a.val (a.n0 - 1) j k ≠ 0)
    (hf1 : ∃ i k, i < a.n0 ∧ k < a.n2 ∧ a.val i 0 k ≠ 0)
    (hf1' : ∃ i k, i < a.n0 ∧ k < a.n2 ∧ a.val i (a.n1 - 1) k ≠ 0)
    (hf2 : ∃ i j, i < a.n0 ∧ j < a.n1 ∧ a.val i j 0 ≠ 0)
    (hf2' : ∃ i j, i < a.n0 ∧ j < a.n1 ∧ a.val i j (a.n2 - 1) ≠ 0) :
    a.crop = .ok a := by
  obtain ⟨j0, k0, hj0, hk0, hv0⟩ := hf0
  obtain ⟨jm, km, hjm, hkm, hvm⟩ := hf0'
  obtain ⟨i1, k1, hi1, hk1, hv1⟩ := hf1
  obtain ⟨im, k1m, him, hk1m, hv1m⟩ := hf1'
  obtain ⟨i2, j2, hi2, hj2, hv2⟩ := hf2
  obtain ⟨i2m, j2m, hi2m, hj2m, hv2m⟩ := hf2'
  have hn0 : 0 < a.n0 := Nat.lt_of_le_of_lt (Nat.zero_le _) hi1
  have hn1 : 0 < a.n1 := Nat.lt_of_le_of_lt (Nat.zero_le _) hj0
  have hn2 : 0 < a.n2 := Nat.lt_of_le_of_lt (Nat.zero_le _) hk0
  have m0 : ((0 : Nat), j0, k0) ∈ a.nonzeroIdx :=
    (mem_nonzeroIdx_iff a 0 j0 k0).mpr ⟨hn0, hj0, hk0, hv0⟩
  have m0' : (a.n0 - 1, jm, km) ∈ a.nonzeroIdx :=
    (mem_nonzeroIdx_iff a _ jm km).mpr ⟨Nat.sub_lt hn0 Nat.one_pos, hjm, hkm, hvm⟩
  have m1 : (i1, (0 : Nat), k1) ∈ a.nonzeroIdx :=
    (mem_nonzeroIdx_iff a i1 0 k1).mpr ⟨hi1, hn1, hk1, hv1⟩
  have m1' : (im, a.n1 - 1, k1m) ∈ a.nonzeroIdx :=
    (mem_nonzeroIdx_iff a im _ k1m).mpr ⟨him, Nat.sub_lt hn1 Nat.one_pos, hk1m, hv1m⟩
  have m2 : (i2, j2, (0 : Nat)) ∈ a.nonzeroIdx :=
    (mem_nonzeroIdx_iff a i2 j2 0).mpr ⟨hi2, hj2, hn2, hv2⟩
  have m2' : (i2m, j2m, a.n2 - 1) ∈ a.nonzeroIdx :=
    (mem_nonzeroIdx_iff a i2m j2m _).mpr ⟨hi2m, hj2m, Nat.sub_lt hn2 Nat.one_pos, hv2m⟩
  rcases hidx : a.nonzeroIdx with _ | ⟨q, qs⟩
  · rw [hidx] at m0
    cases m0
  · rw [hidx] at m0 m0' m1 m1' m2 m2'
    have hminI : listMin ((q :: qs).map fun p => p.1) = 0 :=
      Nat.le_zero.mp (listMin_le _ 0 (List.mem_map.mpr ⟨_, m0, rfl⟩))
    have hmaxI : listMax ((q :: qs).map fun p => p.1) = a.n0 - 1 := by
      apply Nat.le_antisymm
      · apply listMax_le
        intro x hx
        obtain ⟨p, hp, rfl⟩ := List.mem_map.mp hx
        exact Nat.le_sub_one_of_lt (nonzeroIdx_bounds a p (hidx ▸ hp)).1
      · exact le_listMax _ _ (List.mem_map.mpr ⟨_, m0', rfl⟩)
    have hminJ : listMin ((q :: qs).map fun p => p.2.1) = 0 :=
      Nat.le_zero.mp (listMin_le _ 0 (List.mem_map.mpr ⟨_, m1, rfl⟩))
    have hmaxJ : listMax ((q :: qs).map fun p => p.2.1) = a.n1 - 1 := by
      apply Nat.le_antisymm
      · apply listMax_le
        intro x hx
        obtain ⟨p, hp, rfl⟩ := List.mem_map.mp hx
        exact Nat.le_sub_one_of_lt (nonzeroIdx_bounds a p (hidx ▸ hp)).2.1
      · exact le_listMax _ _ (List.mem_map.mpr ⟨_, m1', rfl⟩)
    have hminK : listMin ((q :: qs).map fun p => p.2.2) = 0 :=
      Nat.le_zero.mp (listMin_le _ 0 (List.mem_map.mpr ⟨_, m2, rfl⟩))
    have hmaxK : listMax ((q :: qs).map fun p => p.2.2) = a.n2 - 1 := by
      apply Nat.le_antisymm
      · apply listMax_le
        intro x hx
        obtain ⟨p, hp, rfl⟩ := List.mem_map.mp hx
        exact Nat.le_sub_one_of_lt (nonzeroIdx_bounds a p (hidx ▸ hp)).2.2
      · exact le_listMax _ _ (List.mem_map.mpr ⟨_, m2', rfl⟩)
    simp only [Arr3.crop, hidx, hminI, hmaxI, hminJ, hmaxJ, hminK, hmaxK,
      Nat.sub_zero, Nat.zero_add]
    have e0 : a.n0 - 1 + 1 = a.n0 := Nat.succ_pred_eq_of_pos hn0
    have e1 : a.n1 - 1 + 1 = a.n1 := Nat.succ_pred_eq_of_pos hn1
    have e2 : a.n2 - 1 + 1 = a.n2 := Nat.succ_pred_eq_of_pos hn2
    rw [e0, e1, e2]

/-- C1: In flow-encoded mode, every odd-indexed frame (0-based) of the
reshaped volume holds an integer phase code `c` decoded to radians by the
exact affine map `phase = (c - 2048) / 2048 * pi`; `c = 2048` decodes to
`0.0`, `c = 0` to `-pi`, `c = 4095` to `pi * (2047/2048)`, and even-indexed
frames become SpinDensity unchanged. -/
theorem flow_phase_decode_spec (s s' : MRImateExperiment)
    (hf : s.parameters.is_flow_encoded = true)
    (hr : resize_data s = .ok s') :
    (∃ d ph sd,
      s'.data = .d4 d ∧ s'.phase = some ph ∧ s'.spin_density = some (.d4 sd) ∧
      (∀ i j k t, ph.val i j k t = phaseDecode (d.val i j k (2 * t + 1))) ∧
      (∀ i j k t, sd.val i j k t = d.val i j k (2 * t))) ∧
    (∀ c : ℤ, phaseDecode c = ((c : ℝ) - 2048) / 2048 * Real.pi) ∧
    phaseDecode 2048 = 0 ∧
    phaseDecode 0 = -Real.pi ∧
    phaseDecode 4095 = Real.pi * (2047 / 2048) := by
  refine ⟨?_, ?_, ?_, ?_, ?_⟩
  · rcases resize_data_cases s s' hr with
      ⟨_, d, hre, rfl⟩ | ⟨hnf, _, _⟩ | ⟨hnf, _, _⟩
    · refine ⟨d, (d.sliceLast 1 2).map phaseDecode, d.sliceLast 0 2,
        rfl, rfl, rfl, ?_, ?_⟩
      · intro i j k t
        show phaseDecode (d.val i j k (1 + 2 * t)) = _
        rw [Nat.add_comm]
      · intro i j k t
        show d.val i j k (0 + 2 * t) = _
        rw [Nat.zero_add]
    · rw [hf] at hnf
      cases hnf
    · rw [hf] at hnf
      cases hnf
  · intro c
    unfold phaseDecode
    norm_num
  · unfold phaseDecode
    norm_num
  · unfold phaseDecode
    norm_num
  · unfold phaseDecode
    norm_num
    ring

/-- Witness for C1 at the concrete flow-encoded experiment. -/
theorem flow_phase_decode_spec_witness :
    (initExperiment parsFlow recFlow).parameters.is_flow_encoded = true ∧
    ((∃ d ph sd,
      sFlowResized.data = .d4 d ∧ sFlowResized.phase = some ph ∧
      sFlowResized.spin_density = some (.d4 sd) ∧
      (∀ i j k t, ph.val i j k t = phaseDecode (d.val i j k (2 * t + 1))) ∧
      (∀ i j k t, sd.val i j k t = d.val i j k (2 * t))) ∧
    (∀ c : ℤ, phaseDecode c = ((c : ℝ) - 2048) / 2048 * Real.pi) ∧
    phaseDecode 2048 = 0 ∧
    phaseDecode 0 = -Real.pi ∧
    phaseDecode 4095 = Real.pi * (2047 / 2048)) :=
  ⟨by decide,
   flow_phase_decode_spec (initExperiment parsFlow recFlow) sFlowResized
     (by decide) rfl⟩

/-- C2: Mode selection is mutually exclusive and checked in priority order
on header fields only: a non-zero encoding velocity selects Flow mode with
frame count `2 * dynamics` regardless of the echo count; otherwise echo
count `> 1` selects Multi-echo mode with frame count = echoes and no Phase
channel; otherwise Standard mode with frame count = dynamics and no Phase
channel. -/
theorem mode_selection_spec (s s' : MRImateExperiment)
    (hr : resize_data s = .ok s') :
    (s.parameters.is_flow_encoded = true →
      ∃ d, s'.data = .d4 d ∧ d.n3 = 2 * s.parameters.NumberOfDynamics ∧
        s'.phase.isSome = true) ∧
    (s.parameters.is_flow_encoded = false → s.parameters.MaxNumberOfEchoes > 1 →
      ∃ d, s'.data = .d4 d ∧ d.n3 = s.parameters.MaxNumberOfEchoes ∧
        s'.phase = s.phase) ∧
    (s.parameters.is_flow_encoded = false → s.parameters.MaxNumberOfEchoes ≤ 1 →
      ∃ d, s'.data = .d4 d ∧ d.n3 = s.parameters.NumberOfDynamics ∧
        s'.phase = s.phase) := by
  rcases resize_data_cases s s' hr with
    ⟨hf, d, hre, rfl⟩ | ⟨hnf, he, d, hre, rfl⟩ | ⟨hnf, he, d, hre, rfl⟩
  · refine ⟨fun _ => ⟨d, rfl, ?_, rfl⟩, fun hnf _ => ?_, fun hnf _ => ?_⟩
    · rw [npReshape_ok_shape _ _ _ _ _ _ hre]
      exact Nat.mul_comm _ _
    · rw [hf] at hnf
      cases hnf
    · rw [hf] at hnf
      cases hnf
  · refine ⟨fun hf => ?_, fun _ _ => ⟨d, rfl, ?_, rfl⟩, fun _ hle => ?_⟩
    · rw [hf] at hnf
      cases hnf
    · rw [npReshape_ok_shape _ _ _ _ _ _ hre]
    · exact absurd he (Nat.not_lt.mpr hle)
  · refine ⟨fun hf => ?_, fun _ hgt => ?_, fun _ _ => ⟨d, rfl, ?_, rfl⟩⟩
    · rw [hf] at hnf
      cases hnf
    · exact absurd hgt he
    · rw [npReshape_ok_shape _ _ _ _ _ _ hre]

/-- Witness for C2 at the concrete flow-encoded experiment. -/
theorem mode_selection_spec_witness :
    ((initExperiment parsFlow recFlow).parameters.is_flow_encoded = true →
      ∃ d, sFlowResized.data = .d4 d ∧
        d.n3 = 2 * (initExperiment parsFlow recFlow).parameters.NumberOfDynamics ∧
        sFlowResized.phase.isSome = true) ∧
    ((initExperiment parsFlow recFlow).parameters.is_flow_encoded = false →
      (initExperiment parsFlow recFlow).parameters.MaxNumberOfEchoes > 1 →
      ∃ d, sFlowResized.data = .d4 d ∧
        d.n3 = (initExperiment parsFlow recFlow).parameters.MaxNumberOfEchoes ∧
        sFlowResized.phase = (initExperiment parsFlow recFlow).phase) ∧
    ((initExperiment parsFlow recFlow).parameters.is_flow_encoded = false →
      (initExperiment parsFlow recFlow).parameters.MaxNumberOfEchoes ≤ 1 →
      ∃ d, sFlowResized.data = .d4 d ∧
        d.n3 = (initExperiment parsFlow recFlow).parameters.NumberOfDynamics ∧
        sFlowResized.phase = (initExperiment parsFlow recFlow).phase) :=
  mode_selection_spec (initExperiment parsFlow recFlow) sFlowResized rfl

/-- C3: For a flow-encoded acquisition, `calculate_velocity` yields
elementwise `Velocity = phase * norm(v) / pi` where `norm(v)` is the
Euclidean norm of the header's encoding-velocity vector
(`MaxEncodedVelocity`); the result has the same shape as Phase, the map is
linear in phase with `velocity(0) = 0` and `velocity(pi) = norm(v)`, and
doubling the encoding-velocity magnitude doubles every output value. -/
theorem velocity_formula_spec (s s' : MRImateExperiment) (ph : Arr4 ℝ)
    (hp : s.phase = some ph) (hc : calculate_velocity s = .ok s') :
    (∃ v, s'.velocity = some v ∧
       v.n0 = ph.n0 ∧ v.n1 = ph.n1 ∧ v.n2 = ph.n2 ∧ v.n3 = ph.n3 ∧
       ∀ i j k t, v.val i j k t =
         ph.val i j k t * s.parameters.MaxEncodedVelocity / Real.pi) ∧
    s.parameters.MaxEncodedVelocity =
      Real.sqrt ((s.parameters.PhaseEncodingVelocity.1 : ℝ) ^ 2 +
        (s.parameters.PhaseEncodingVelocity.2.1 : ℝ) ^ 2 +
        (s.parameters.PhaseEncodingVelocity.2.2 : ℝ) ^ 2) ∧
    (∀ V : ℝ, velocityOfPhase V 0 = 0) ∧
    (∀ V : ℝ, velocityOfPhase V Real.pi = V) ∧
    (∀ V a b x y : ℝ, velocityOfPhase V (a * x + b * y) =
       a * velocityOfPhase V x + b * velocityOfPhase V y) ∧
    (∀ V x : ℝ, velocityOfPhase (2 * V) x = 2 * velocityOfPhase V x) ∧
    (∀ p q : MRIExperiment_Philips,
       q.PhaseEncodingVelocity.1 = 2 * p.PhaseEncodingVelocity.1 →
       q.PhaseEncodingVelocity.2.1 = 2 * p.PhaseEncodingVelocity.2.1 →
       q.PhaseEncodingVelocity.2.2 = 2 * p.PhaseEncodingVelocity.2.2 →
       q.MaxEncodedVelocity = 2 * p.MaxEncodedVelocity) := by
  refine ⟨?_, rfl, ?_, ?_, ?_, ?_, ?_⟩
  · unfold calculate_velocity at hc
    by_cases hl : s.data_loaded = false
    · rw [if_pos hl] at hc
      cases hc
    · rw [if_neg hl] at hc
      by_cases hf : s.parameters.is_flow_encoded
      · rw [if_pos hf, hp] at hc
        cases hc
        exact ⟨ph.map (velocityOfPhase s.parameters.MaxEncodedVelocity),
          rfl, rfl, rfl, rfl, rfl, fun i j k t => rfl⟩
      · rw [if_neg hf] at hc
        cases hc
  · intro V
    unfold velocityOfPhase
    simp
  · intro V
    unfold velocityOfPhase
    field_simp
  · intro V a b x y
    unfold velocityOfPhase
    ring
  · intro V x
    unfold velocityOfPhase
    ring
  · intro p q h1 h2 h3
    unfold MRIExperiment_Philips.MaxEncodedVelocity
    rw [h1, h2, h3]
    push_cast
    rw [show (2 * (p.PhaseEncodingVelocity.1 : ℝ)) ^ 2 +
          (2 * (p.PhaseEncodingVelocity.2.1 : ℝ)) ^ 2 +
          (2 * (p.PhaseEncodingVelocity.2.2 : ℝ)) ^ 2 =
        (2 : ℝ) ^ 2 * ((p.PhaseEncodingVelocity.1 : ℝ) ^ 2 +
          (p.PhaseEncodingVelocity.2.1 : ℝ) ^ 2 +
          (p.PhaseEncodingVelocity.2.2 : ℝ) ^ 2) from by ring]
    rw [Real.sqrt_mul (by positivity) _, Real.sqrt_sq (by norm_num)]

/-- Witness for C3 at the loaded concrete flow experiment. -/
theorem velocity_formula_spec_witness :
    (∃ v, sFlowVel.velocity = some v ∧
       v.n0 = phFlow.n0 ∧ v.n1 = phFlow.n1 ∧ v.n2 = phFlow.n2 ∧ v.n3 = phFlow.n3 ∧
       ∀ i j k t, v.val i j k t =
         phFlow.val i j k t * sFlow.parameters.MaxEncodedVelocity / Real.pi) ∧
    sFlow.parameters.MaxEncodedVelocity =
      Real.sqrt ((sFlow.parameters.PhaseEncodingVelocity.1 : ℝ) ^ 2 +
        (sFlow.parameters.PhaseEncodingVelocity.2.1 : ℝ) ^ 2 +
        (sFlow.parameters.PhaseEncodingVelocity.2.2 : ℝ) ^ 2) ∧
    (∀ V : ℝ, velocityOfPhase V 0 = 0) ∧
    (∀ V : ℝ, velocityOfPhase V Real.pi = V) ∧
    (∀ V a b x y : ℝ, velocityOfPhase V (a * x + b * y) =
       a * velocityOfPhase V x + b * velocityOfPhase V y) ∧
    (∀ V x : ℝ, velocityOfPhase (2 * V) x = 2 * velocityOfPhase V x) ∧
    (∀ p q : MRIExperiment_Philips,
       q.PhaseEncodingVelocity.1 = 2 * p.PhaseEncodingVelocity.1 →
       q.PhaseEncodingVelocity.2.1 = 2 * p.PhaseEncodingVelocity.2.1 →
       q.PhaseEncodingVelocity.2.2 = 2 * p.PhaseEncodingVelocity.2.2 →
       q.MaxEncodedVelocity = 2 * p.MaxEncodedVelocity) :=
  velocity_formula_spec sFlow sFlowVel phFlow rfl rfl

/-- C4: After `load` completes, the zero-cropping step has no effect on any
output channel: `removing_unwanted_zeros` writes its cropped array only into
`spin_density` and leaves `data` unchanged, and the subsequent `resize_data`
call overwrites `spin_density` (and `phase`) from the uncropped `data`
buffer, so the loaded state coincides with the one produced by the pipeline
with the cropping step skipped. -/
theorem crop_has_no_effect_on_outputs (pars : MRIExperiment_Philips)
    (rec : Arr3 ℤ) (s' : MRImateExperiment)
    (h : load pars rec = .ok s') :
    (∀ s t, removing_unwanted_zeros s = .ok t →
       t.data = s.data ∧ t.parameters = s.parameters ∧
       t.phase = s.phase ∧ t.velocity = s.velocity) ∧
    load_without_crop pars rec = .ok s' := by
  constructor
  · intro s t ht
    unfold removing_unwanted_zeros at ht
    cases hd : s.data with
    | d3 a =>
        rw [hd] at ht
        have ht2 : Except.map
            (fun c => { parameters := s.parameters, data := NpData.d3 a,
                        spin_density := some (NpData.d3 c), phase := s.phase,
                        velocity := s.velocity, data_loaded := s.data_loaded })
            a.crop = Except.ok t := ht
        cases hc : a.crop with
        | error e =>
            rw [hc] at ht2
            cases ht2
        | ok c =>
            rw [hc] at ht2
            simp only [Except.map, Except.ok.injEq] at ht2
            rw [← ht2]
            exact ⟨rfl, rfl, rfl, rfl⟩
    | d4 a =>
        rw [hd] at ht
        have ht2 : Except.map
            (fun c => { parameters := s.parameters, data := NpData.d4 a,
                        spin_density := some (NpData.d4 c), phase := s.phase,
                        velocity := s.velocity, data_loaded := s.data_loaded })
            a.crop = Except.ok t := ht
        cases hc : a.crop with
        | error e =>
            rw [hc] at ht2
            cases ht2
        | ok c =>
            rw [hc] at ht2
            simp only [Except.map, Except.ok.injEq] at ht2
            rw [← ht2]
            exact ⟨rfl, rfl, rfl, rfl⟩
  · unfold load at h
    unfold load_without_crop
    have hrw : removing_unwanted_zeros (initExperiment pars rec) =
        (rec.crop).map fun c =>
          { initExperiment pars rec with spin_density := some (.d3 c) } := rfl
    rw [hrw] at h
    cases hc : rec.crop with
    | error e =>
        rw [hc] at h
        exact Except.noConfusion h
    | ok c =>
        rw [hc] at h
        exact h

/-- Witness for C4 at the loaded concrete flow experiment. -/
theorem crop_has_no_effect_on_outputs_witness :
    (∀ s t, removing_unwanted_zeros s = .ok t →
       t.data = s.data ∧ t.parameters = s.parameters ∧
       t.phase = s.phase ∧ t.velocity = s.velocity) ∧
    load_without_crop parsFlow recFlow = .ok sFlow :=
  crop_has_no_effect_on_outputs parsFlow recFlow sFlow rfl

/-- C5 (amended): a buffer whose length equals `R*C*S*F` reshapes without
error to shape `(R, C, S, F)`; any other buffer length makes the reshape
fail with numpy's generic `ValueError` — not with a dedicated
`ShapeMismatchError`, which does not exist in the code. -/
theorem reshape_shape_spec (d : NpData ℤ) (m0 m1 m2 m3 : Nat) :
    (d.size = m0 * m1 * m2 * m3 →
       ∃ a, npReshape d m0 m1 m2 m3 = .ok a ∧
         a.n0 = m0 ∧ a.n1 = m1 ∧ a.n2 = m2 ∧ a.n3 = m3) ∧
    (d.size ≠ m0 * m1 * m2 * m3 →
       npReshape d m0 m1 m2 m3 = .error (.valueError reshapeErrMsg) ∧
       (PyError.valueError reshapeErrMsg).className = "ValueError" ∧
       ¬ raisesClass (npReshape d m0 m1 m2 m3) "ShapeMismatchError") := by
  constructor
  · intro hsz
    obtain ⟨a, ha⟩ := (npReshape_ok_iff d m0 m1 m2 m3).mpr hsz
    rw [npReshape_ok_shape d m0 m1 m2 m3 a ha] at ha
    exact ⟨_, ha, rfl, rfl, rfl, rfl⟩
  · intro hsz
    refine ⟨npReshape_err d m0 m1 m2 m3 hsz, rfl, ?_⟩
    rintro ⟨e, he, hcl⟩
    rw [npReshape_err d m0 m1 m2 m3 hsz] at he
    cases he
    exact absurd hcl (by decide)

/-- Witness for C5: a 1x1x2 buffer reshapes to `(1,1,1,2)`, and the same
buffer fails to reshape to `(1,1,1,3)` with a `ValueError`. -/
theorem reshape_shape_spec_witness :
    ((NpData.d3 recFlow).size = 1 * 1 * 1 * 2 ∧
      ∃ a, npReshape (.d3 recFlow) 1 1 1 2 = .ok a ∧
        a.n0 = 1 ∧ a.n1 = 1 ∧ a.n2 = 1 ∧ a.n3 = 2) ∧
    ((NpData.d3 recFlow).size ≠ 1 * 1 * 1 * 3 ∧
      npReshape (.d3 recFlow) 1 1 1 3 = .error (.valueError reshapeErrMsg) ∧
      (PyError.valueError reshapeErrMsg).className = "ValueError" ∧
      ¬ raisesClass (npReshape (.d3 recFlow) 1 1 1 3) "ShapeMismatchError") :=
  ⟨⟨by decide, (reshape_shape_spec (.d3 recFlow) 1 1 1 2).1 (by decide)⟩,
   ⟨by decide, (reshape_shape_spec (.d3 recFlow) 1 1 1 3).2 (by decide)⟩⟩

/-- Counterexample for C5 as stated: a buffer one element short of the
expected length (1 element, target `(1,1,1,2)`) raises numpy's plain
`ValueError`, not a `ShapeMismatchError`. -/
theorem reshape_shape_cex :
    npReshape (.d3 recShort) 1 1 1 2 = .error (.valueError reshapeErrMsg) ∧
    ¬ raisesClass (npReshape (.d3 recShort) 1 1 1 2) "ShapeMismatchError" := by
  refine ⟨rfl, ?_⟩
  rintro ⟨e, he, hcl⟩
  rw [show npReshape (.d3 recShort) 1 1 1 2 =
      .error (.valueError reshapeErrMsg) from rfl] at he
  cases he
  exact absurd hcl (by decide)

theorem npReshape_error_class {α : Type} (d : NpData α) (m0 m1 m2 m3 : Nat)
    (e : PyError) (h : npReshape d m0 m1 m2 m3 = .error e) :
    e.className = "ValueError" := by
  unfold npReshape at h
  split at h
  · cases h
  · cases h
    rfl

/-- C6 (amended): cropping an all-zero volume fails — `np.min` over the
empty set of non-zero indices raises numpy's generic `ValueError`, not a
dedicated `EmptyVolumeError`, which does not exist in the code. -/
theorem allzero_crop_spec (s : MRImateExperiment) (a : Arr3 ℤ)
    (hd : s.data = .d3 a)
    (hz : ∀ i < a.n0, ∀ j < a.n1, ∀ k < a.n2, a.val i j k = 0) :
    removing_unwanted_zeros s = .error (.valueError minReduceMsg) ∧
    (PyError.valueError minReduceMsg).className = "ValueError" ∧
    ¬ raisesClass (removing_unwanted_zeros s) "EmptyVolumeError" := by
  have herr : removing_unwanted_zeros s = .error (.valueError minReduceMsg) := by
    unfold removing_unwanted_zeros
    rw [hd]
    have hgoal : Except.map
        (fun c => ({ parameters := s.parameters, data := NpData.d3 a,
                     spin_density := some (NpData.d3 c), phase := s.phase,
                     velocity := s.velocity,
                     data_loaded := s.data_loaded } : MRImateExperiment))
        a.crop = Except.error (.valueError minReduceMsg) := by
      rw [crop_allzero a hz]
      rfl
    exact hgoal
  refine ⟨herr, rfl, ?_⟩
  rintro ⟨e, he, hcl⟩
  rw [herr] at he
  cases he
  exact absurd hcl (by decide)

/-- Witness for C6 at the concrete all-zero 1x1x1 volume. -/
theorem allzero_crop_spec_witness :
    removing_unwanted_zeros (initExperiment parsStd recZero) =
      .error (.valueError minReduceMsg) ∧
    (PyError.valueError minReduceMsg).className = "ValueError" ∧
    ¬ raisesClass (removing_unwanted_zeros (initExperiment parsStd recZero))
      "EmptyVolumeError" :=
  allzero_crop_spec (initExperiment parsStd recZero) recZero rfl (by decide)

/-- Counterexample for C6 as stated: the all-zero volume raises a plain
`ValueError`, not an `EmptyVolumeError`. -/
theorem allzero_crop_cex :
    Arr3.crop recZero = .error (.valueError minReduceMsg) ∧
    ¬ raisesClass (Arr3.crop recZero) "EmptyVolumeError" := by
  refine ⟨rfl, ?_⟩
  rintro ⟨e, he, hcl⟩
  rw [show Arr3.crop recZero = .error (.valueError minReduceMsg) from rfl] at he
  cases he
  exact absurd hcl (by decide)

/-- C7 (amended): a header whose encoding-velocity vector has more than one
non-zero component is NOT rejected: `is_flow_encoded` is true for any
non-zero vector, no `UnsupportedEncodingError` exists (any `resize_data`
failure is a reshape `ValueError`), and on success the decoder performs the
ordinary interleaved 1-D decode, producing SpinDensity and Phase. -/
theorem multiaxis_not_rejected (s : MRImateExperiment)
    (hm : (s.parameters.PhaseEncodingVelocity.1 ≠ 0 ∧
             s.parameters.PhaseEncodingVelocity.2.1 ≠ 0) ∨
          (s.parameters.PhaseEncodingVelocity.1 ≠ 0 ∧
             s.parameters.PhaseEncodingVelocity.2.2 ≠ 0) ∨
          (s.parameters.PhaseEncodingVelocity.2.1 ≠ 0 ∧
             s.parameters.PhaseEncodingVelocity.2.2 ≠ 0)) :
    s.parameters.is_flow_encoded = true ∧
    (∀ e, resize_data s = .error e → e.className = "ValueError") ∧
    (∀ s', resize_data s = .ok s' →
       ∃ d, s'.data = .d4 d ∧
         s'.spin_density = some (.d4 (d.sliceLast 0 2)) ∧
         s'.phase = some ((d.sliceLast 1 2).map phaseDecode)) := by
  have hf : s.parameters.is_flow_encoded = true := by
    unfold MRIExperiment_Philips.is_flow_encoded
    rw [decide_eq_true_iff]
    intro heq
    rcases hm with ⟨h1, _⟩ | ⟨h1, _⟩ | ⟨_, h2⟩
    · exact h1 (by rw [heq])
    · exact h1 (by rw [heq])
    · exact h2 (by rw [heq])
  refine ⟨hf, ?_, ?_⟩
  · intro e he
    unfold resize_data at he
    rw [if_pos hf] at he
    cases hre : npReshape s.data s.data.shape0 s.data.shape1
        s.parameters.NumberOfSlices (s.parameters.NumberOfDynamics * 2) with
    | ok d =>
        rw [hre] at he
        exact Except.noConfusion he
    | error e2 =>
        rw [hre] at he
        have he2 : (Except.error e2 : Except PyError MRImateExperiment) =
            .error e := he
        cases he2
        exact npReshape_error_class _ _ _ _ _ _ hre
  · intro s' hr
    rcases resize_data_cases s s' hr with
      ⟨_, d, _, rfl⟩ | ⟨hnf, _, _⟩ | ⟨hnf, _, _⟩
    · exact ⟨d, rfl, rfl, rfl⟩
    · rw [hf] at hnf
      cases hnf
    · rw [hf] at hnf
      cases hnf

/-- Witness for C7 at the concrete multi-axis header (1, 1, 0). -/
theorem multiaxis_not_rejected_witness :
    sMulti.parameters.is_flow_encoded = true ∧
    (∀ e, resize_data sMulti = .error e → e.className = "ValueError") ∧
    (∀ s', resize_data sMulti = .ok s' →
       ∃ d, s'.data = .d4 d ∧
         s'.spin_density = some (.d4 (d.sliceLast 0 2)) ∧
         s'.phase = some ((d.sliceLast 1 2).map phaseDecode)) :=
  multiaxis_not_rejected sMulti (Or.inl ⟨by decide, by decide⟩)

/-- Counterexample for C7 as stated: the multi-axis experiment decodes
without any error — in particular no `UnsupportedEncodingError` — and ends
up with a Phase channel. -/
theorem multiaxis_not_rejected_cex :
    (resize_data sMulti).isOk = true ∧
    ¬ raisesClass (resize_data sMulti) "UnsupportedEncodingError" ∧
    (okOr (resize_data sMulti) dfltExperiment).phase.isSome = true := by
  refine ⟨rfl, ?_, rfl⟩
  rintro ⟨e, he, _⟩
  rw [show resize_data sMulti =
      .ok (okOr (resize_data sMulti) dfltExperiment) from rfl] at he
  cases he

/-- C8 (amended): on a loaded non-flow acquisition `get_phase` raises a
plain `ValueError` with the phase-unavailable message, and on a loaded
flow acquisition whose velocity has not been computed `get_velocity` raises
a plain `ValueError` with the velocity-unavailable message; the two
messages are distinct, but the exception class is the same generic
`ValueError` in both cases — no `PhaseUnavailableError` or
`VelocityUnavailableError` classes exist in the code. -/
theorem accessor_errors_spec (s1 s2 : MRImateExperiment)
    (h1l : s1.data_loaded = true) (h1p : s1.phase = none)
    (h2l : s2.data_loaded = true) (h2p : s2.phase.isSome = true)
    (h2v : s2.velocity = none) :
    get_phase s1 = .error (.valueError phaseUnavailMsg) ∧
    get_velocity s2 = .error (.valueError velocityUnavailMsg) ∧
    phaseUnavailMsg ≠ velocityUnavailMsg ∧
    (PyError.valueError phaseUnavailMsg).className =
      (PyError.valueError velocityUnavailMsg).className := by
  refine ⟨?_, ?_, by decide, rfl⟩
  · simp [get_phase, h1l, h1p]
  · obtain ⟨ph, hph⟩ := Option.isSome_iff_exists.mp h2p
    simp [get_velocity, h2l, h2v, hph]

/-- Witness for C8 at the loaded standard and flow experiments. -/
theorem accessor_errors_spec_witness :
    get_phase sStd = .error (.valueError phaseUnavailMsg) ∧
    get_velocity sFlow = .error (.valueError velocityUnavailMsg) ∧
    phaseUnavailMsg ≠ velocityUnavailMsg ∧
    (PyError.valueError phaseUnavailMsg).className =
      (PyError.valueError velocityUnavailMsg).className :=
  accessor_errors_spec sStd sFlow rfl rfl rfl rfl rfl

/-- Counterexample for C8 as stated: neither accessor raises the dedicated
exception classes the claim names; both raise the same `ValueError` class. -/
theorem accessor_errors_cex :
    get_phase sStd = .error (.valueError phaseUnavailMsg) ∧
    get_velocity sFlow = .error (.valueError velocityUnavailMsg) ∧
    ¬ raisesClass (get_phase sStd) "PhaseUnavailableError" ∧
    ¬ raisesClass (get_velocity sFlow) "VelocityUnavailableError" ∧
    (PyError.valueError phaseUnavailMsg).className =
      (PyError.valueError velocityUnavailMsg).className := by
  refine ⟨rfl, rfl, ?_, ?_, rfl⟩
  · rintro ⟨e, he, hcl⟩
    rw [show get_phase sStd = .error (.valueError phaseUnavailMsg) from rfl] at he
    cases he
    exact absurd hcl (by decide)
  · rintro ⟨e, he, hcl⟩
    rw [show get_velocity sFlow =
        .error (.valueError velocityUnavailMsg) from rfl] at he
    cases he
    exact absurd hcl (by decide)

theorem load_ok_mode (pars : MRIExperiment_Philips) (rec : Arr3 ℤ)
    (s' : MRImateExperiment) (h : load pars rec = .ok s') :
    s'.parameters = pars ∧
    s'.phase.isSome = pars.is_flow_encoded ∧
    ∃ d, s'.data = NpData.d4 d ∧
      d.n3 = (if pars.is_flow_encoded then pars.NumberOfDynamics * 2
              else if pars.MaxNumberOfEchoes > 1 then pars.MaxNumberOfEchoes
              else pars.NumberOfDynamics) := by
  unfold load at h
  have hrw : removing_unwanted_zeros (initExperiment pars rec) =
      (rec.crop).map fun c =>
        { initExperiment pars rec with spin_density := some (.d3 c) } := rfl
  rw [hrw] at h
  cases hc : rec.crop with
  | error e =>
      rw [hc] at h
      exact Except.noConfusion h
  | ok c =>
      rw [hc] at h
      have h2 : (resize_data { initExperiment pars rec with
            spin_density := some (.d3 c) } >>= fun s2 =>
          Except.ok { s2 with data_loaded := true }) = Except.ok s' := h
      cases hr : resize_data { initExperiment pars rec with
          spin_density := some (.d3 c) } with
      | error e =>
          rw [hr] at h2
          exact Except.noConfusion h2
      | ok s2 =>
          rw [hr] at h2
          have h3 : Except.ok { s2 with data_loaded := true } =
              Except.ok s' := h2
          obtain rfl : ({ s2 with data_loaded := true } :
              MRImateExperiment) = s' := by injection h3
          rcases resize_data_cases _ s2 hr with
            ⟨hf, d, hre, rfl⟩ | ⟨hnf, he, d, hre, rfl⟩ | ⟨hnf, he, d, hre, rfl⟩
          · have hf' : pars.is_flow_encoded = true := hf
            refine ⟨rfl, ?_, d, rfl, ?_⟩
            · rw [hf']
              rfl
            · rw [if_pos hf', npReshape_ok_shape _ _ _ _ _ _ hre]
              rfl
          · have hnf' : pars.is_flow_encoded = false := hnf
            have he' : pars.MaxNumberOfEchoes > 1 := he
            refine ⟨rfl, ?_, d, rfl, ?_⟩
            · rw [hnf']
              rfl
            · rw [if_neg (by simp [hnf']), if_pos he',
                npReshape_ok_shape _ _ _ _ _ _ hre]
              rfl
          · have hnf' : pars.is_flow_encoded = false := hnf
            have he' : ¬ pars.MaxNumberOfEchoes > 1 := he
            refine ⟨rfl, ?_, d, rfl, ?_⟩
            · rw [hnf']
              rfl
            · rw [if_neg (by simp [hnf']), if_neg he',
                npReshape_ok_shape _ _ _ _ _ _ hre]
              rfl

/-- C9: The flow-encoded flag and the decoder branch depend only on the
header's encoding-velocity field, never on the pixel data: two buffers
loaded with the same header select the same mode (same Phase presence, same
frame count), and after `load` the Phase channel is present iff the
header's encoding velocity differs from (0, 0, 0). -/
theorem mode_independent_of_pixels (pars : MRIExperiment_Philips)
    (rec1 rec2 : Arr3 ℤ) (s1 s2 : MRImateExperiment)
    (h1 : load pars rec1 = .ok s1) (h2 : load pars rec2 = .ok s2) :
    (pars.is_flow_encoded = true ↔
       pars.PhaseEncodingVelocity ≠ ((0 : ℚ), (0 : ℚ), (0 : ℚ))) ∧
    s1.phase.isSome = s2.phase.isSome ∧
    (s1.phase.isSome = true ↔
       pars.PhaseEncodingVelocity ≠ ((0 : ℚ), (0 : ℚ), (0 : ℚ))) ∧
    (∃ d1 d2, s1.data = .d4 d1 ∧ s2.data = .d4 d2 ∧ d1.n3 = d2.n3) := by
  obtain ⟨_, hp1, d1, hd1, hn1⟩ := load_ok_mode pars rec1 s1 h1
  obtain ⟨_, hp2, d2, hd2, hn2⟩ := load_ok_mode pars rec2 s2 h2
  have hiff : pars.is_flow_encoded = true ↔
      pars.PhaseEncodingVelocity ≠ ((0 : ℚ), (0 : ℚ), (0 : ℚ)) := by
    unfold MRIExperiment_Philips.is_flow_encoded
    exact decide_eq_true_iff
  refine ⟨hiff, by rw [hp1, hp2], ?_, d1, d2, hd1, hd2, by rw [hn1, hn2]⟩
  rw [hp1]
  exact hiff

/-- Witness for C9: the same flow header loaded with two different pixel
buffers. -/
theorem mode_independent_of_pixels_witness :
    (parsFlow.is_flow_encoded = true ↔
       parsFlow.PhaseEncodingVelocity ≠ ((0 : ℚ), (0 : ℚ), (0 : ℚ))) ∧
    sFlow.phase.isSome = sFlow2.phase.isSome ∧
    (sFlow.phase.isSome = true ↔
       parsFlow.PhaseEncodingVelocity ≠ ((0 : ℚ), (0 : ℚ), (0 : ℚ))) ∧
    (∃ d1 d2, sFlow.data = .d4 d1 ∧ sFlow2.data = .d4 d2 ∧ d1.n3 = d2.n3) :=
  mode_independent_of_pixels parsFlow recFlow recFlow2 sFlow sFlow2 rfl rfl

/-- C10: The padding crop is idempotent: a volume that already has a
non-zero voxel on every face of its three axes (no zero border) is returned
unchanged in both shape and values. -/
theorem cropper_idempotent_on_tight_volume (a : Arr3 ℤ)
    (hf0 : ∃ j k, j < a.n1 ∧ k < a.n2 ∧ a.val 0 j k ≠ 0)
    (hf0' : ∃ j k, j < a.n1 ∧ k < a.n2 ∧ a.val (a.n0 - 1) j k ≠ 0)
    (hf1 : ∃ i k, i < a.n0 ∧ k < a.n2 ∧ a.val i 0 k ≠ 0)
    (hf1' : ∃ i k, i < a.n0 ∧ k < a.n2 ∧ a.val i (a.n1 - 1) k ≠ 0)
    (hf2 : ∃ i j, i < a.n0 ∧ j < a.n1 ∧ a.val i j 0 ≠ 0)
    (hf2' : ∃ i j, i < a.n0 ∧ j < a.n1 ∧ a.val i j (a.n2 - 1) ≠ 0) :
    a.crop = .ok a :=
  crop_tight a hf0 hf0' hf1 hf1' hf2 hf2'

/-- Witness for C10 at a concrete 1x1x1 volume with no zero border. -/
theorem cropper_idempotent_on_tight_volume_witness :
    (∃ j k, j < recTight.n1 ∧ k < recTight.n2 ∧ recTight.val 0 j k ≠ 0) ∧
    Arr3.crop recTight = .ok recTight :=
  ⟨⟨0, 0, by decide, by decide, by decide⟩,
   cropper_idempotent_on_tight_volume recTight
     ⟨0, 0, by decide, by decide, by decide⟩
     ⟨0, 0, by decide, by decide, by decide⟩
     ⟨0, 0, by decide, by decide, by decide⟩
     ⟨0, 0, by decide, by decide, by decide⟩
     ⟨0, 0, by decide, by decide, by decide⟩
     ⟨0, 0, by decide, by decide, by decide⟩⟩
